import Mathlib

/- Shallow embedding of src/native/src/lib.rs (crate "anomaly"): a two-body
   Keplerian orbit model.  The Rust code computes over f64; the embedding
   models f64 arithmetic over the reals.  `powf(2.0)` and `powf(3.0)` are
   modelled as natural-number powers (they agree with f64 powf on the
   nonnegative bases the formulas use); `panic!` is modelled as `Except.error`
   carrying the panic message as a constructor.  Division by zero in the model
   follows the Lean convention x / 0 = 0 (Rust f64 yields Infinity/NaN there);
   the theorems only rely on the division being reached, not on its value,
   except where explicitly stated. -/

noncomputable section

/-- Models the constant `std::f64::consts::PI` used by the source. -/
def PI : ℝ := Real.pi

/-- Models `f64::acosh` on arguments `x ≥ 1` (the only place the source calls
it): arcosh x = log (x + sqrt (x^2 - 1)). -/
def arcosh (x : ℝ) : ℝ := Real.log (x + Real.sqrt (x ^ 2 - 1))

/-- Embeds `struct Body` (mass kg, radius m, stored gravitational parameter
`k`, gravitational constant `G`).  `k` is a stored field, exactly as in the
source. -/
structure Body where
  mass : ℝ
  radius : ℝ
  k : ℝ
  G : ℝ

/-- Embeds the associated function `Body::k(mass, G) -> f64 { mass * G }`
(units m^3/s^2).  Named `kOf` because `Body.k` is taken by the field
projection. -/
def Body.kOf (mass G : ℝ) : ℝ := mass * G

/-- Embeds `impl Default for Body`: `mass = 1.0; radius = 1.0;
G = 6.67408e-11; Body { mass: radius, radius: radius, G: G,
k: Body::k(0.0, G) }`.  Note the source passes the literal `0.0`, not `mass`,
to `Body::k`. -/
def Body.defaultBody : Body :=
  let radius : ℝ := 1.0
  let G : ℝ := 6.67408e-11
  { mass := radius, radius := radius, G := G, k := Body.kOf 0.0 G }

/-- Embeds `struct KeplerianElements`. -/
structure KeplerianElements where
  semimajor_axis : ℝ
  eccentricity : ℝ
  inclination : ℝ
  ascending_node : ℝ
  angle_of_periapsis : ℝ

/-- Embeds `struct Anomaly`; `time_ms : u64` becomes ℕ. -/
structure Anomaly where
  time_ms : ℕ
  true_anomaly : ℝ
  mean_anomaly : ℝ
  eccentric_anomaly : ℝ

/-- Models a Rust `panic!`: the only panic in the source is
`panic!("Not implemented")` in `Orbit::next_anomaly`. -/
inductive RustPanic where
  | notImplemented

/-- Embeds `enum Orbit`: a tagged union over the four orbit classes, each
carrying a `KeplerianElements`.  The source exposes no validating
constructor: these are the plain enum constructors. -/
inductive Orbit where
  | Circular (elements : KeplerianElements)
  | Elliptical (elements : KeplerianElements)
  | Parabolic (elements : KeplerianElements)
  | Hyperbolic (elements : KeplerianElements)

/-- Embeds `Orbit::eccentricity`. -/
def Orbit.eccentricity : Orbit → ℝ
  | .Circular _elements => 0
  | .Elliptical elements => elements.eccentricity
  | .Parabolic _elements => 1
  | .Hyperbolic elements => elements.eccentricity

/-- Embeds `Orbit::semimajor_axis` (`Option<f64>`, `None` for Parabolic). -/
def Orbit.semimajor_axis : Orbit → Option ℝ
  | .Circular elements => some elements.semimajor_axis
  | .Elliptical elements => some elements.semimajor_axis
  | .Parabolic _elements => none
  | .Hyperbolic elements => some elements.semimajor_axis

/-- Embeds `Orbit::inclination`. -/
def Orbit.inclination : Orbit → ℝ
  | .Circular elements => elements.inclination
  | .Elliptical elements => elements.inclination
  | .Parabolic elements => elements.inclination
  | .Hyperbolic elements => elements.inclination

/-- Embeds `Orbit::angle_of_ascending_node`. -/
def Orbit.angle_of_ascending_node : Orbit → ℝ
  | .Circular elements => elements.ascending_node
  | .Elliptical elements => elements.ascending_node
  | .Parabolic elements => elements.ascending_node
  | .Hyperbolic elements => elements.ascending_node

/-- Embeds `Orbit::angle_of_periapsis`. -/
def Orbit.angle_of_periapsis : Orbit → ℝ
  | .Circular elements => elements.angle_of_periapsis
  | .Elliptical elements => elements.angle_of_periapsis
  | .Parabolic elements => elements.angle_of_periapsis
  | .Hyperbolic elements => elements.angle_of_periapsis

/-- Embeds `Orbit::periapsis` (q). -/
def Orbit.periapsis : Orbit → ℝ
  | .Circular elements => elements.semimajor_axis
  | .Elliptical elements => elements.semimajor_axis * (1 - elements.eccentricity)
  | .Parabolic elements => elements.semimajor_axis
  | .Hyperbolic elements => elements.semimajor_axis * (1 - elements.eccentricity)

/-- Embeds `Orbit::parameter` (semi-latus rectum p); `powf(2.0)` modelled as
`^ 2`. -/
def Orbit.parameter : Orbit → ℝ
  | .Circular elements => elements.semimajor_axis
  | .Elliptical elements => elements.semimajor_axis * (1 - elements.eccentricity ^ 2)
  | .Parabolic elements => 2 * elements.semimajor_axis
  | .Hyperbolic elements => elements.semimajor_axis * (1 - elements.eccentricity ^ 2)

/-- Embeds `Orbit::total_energy`: the source computes
`-body.k / 2.0 * elements.semimajor_axis`, i.e. `(-k/2) * a`, for the three
non-parabolic classes, and `0.0` for Parabolic. -/
def Orbit.total_energy (self : Orbit) (body : Body) : ℝ :=
  match self with
  | .Circular elements => -body.k / 2 * elements.semimajor_axis
  | .Elliptical elements => -body.k / 2 * elements.semimajor_axis
  | .Parabolic _elements => 0
  | .Hyperbolic elements => -body.k / 2 * elements.semimajor_axis

/-- Embeds `Orbit::distance_from_parent` (r); the `body` argument is unused by
the source too. -/
def Orbit.distance_from_parent (self : Orbit) (_body : Body) (anomaly : Anomaly) : ℝ :=
  match self with
  | .Circular elements => elements.semimajor_axis
  | .Elliptical elements =>
      (Orbit.Elliptical elements).parameter
        / (1 + elements.eccentricity * Real.cos anomaly.true_anomaly)
  | .Parabolic elements =>
      2 * (Orbit.Parabolic elements).periapsis / (1 + Real.cos anomaly.true_anomaly)
  | .Hyperbolic elements =>
      (Orbit.Hyperbolic elements).parameter
        / (1 + elements.eccentricity * Real.cos anomaly.true_anomaly)

/-- Embeds `Orbit::velocity`.  Note the Circular arm of the source is
`body.k * (1.0 / a)` with no square root, unlike the other three arms. -/
def Orbit.velocity (self : Orbit) (body : Body) (anomaly : Anomaly) : ℝ :=
  match self with
  | .Circular elements => body.k * (1 / elements.semimajor_axis)
  | .Elliptical elements =>
      Real.sqrt (body.k * (2 / (Orbit.Elliptical elements).distance_from_parent body anomaly
        - 1 / elements.semimajor_axis))
  | .Parabolic elements =>
      Real.sqrt (body.k * (2 / (Orbit.Parabolic elements).distance_from_parent body anomaly))
  | .Hyperbolic elements =>
      Real.sqrt (body.k * (2 / (Orbit.Hyperbolic elements).distance_from_parent body anomaly
        - 1 / elements.semimajor_axis))

/-- Embeds `Orbit::angle_of_velocity`. -/
def Orbit.angle_of_velocity (self : Orbit) (anomaly : Anomaly) : ℝ :=
  match self with
  | .Circular _elements => 0
  | .Elliptical elements =>
      Real.arctan (elements.eccentricity * Real.sin anomaly.true_anomaly
        / (1 + elements.eccentricity * Real.cos anomaly.true_anomaly))
  | .Parabolic _elements => anomaly.true_anomaly / 2
  | .Hyperbolic elements =>
      Real.arctan (elements.eccentricity * Real.sin anomaly.true_anomaly
        / (1 + elements.eccentricity * Real.cos anomaly.true_anomaly))

/-- Embeds `Orbit::velocity_at_periapsis` (Vq). -/
def Orbit.velocity_at_periapsis (self : Orbit) (body : Body) : ℝ :=
  match self with
  | .Circular elements => Real.sqrt (body.k / elements.semimajor_axis)
  | .Elliptical elements =>
      Real.sqrt (body.k / elements.semimajor_axis
        * (1 + elements.eccentricity) / (1 - elements.eccentricity))
  | .Parabolic elements => Real.sqrt (body.k * (Orbit.Parabolic elements).periapsis / 2)
  | .Hyperbolic elements =>
      Real.sqrt (body.k / elements.semimajor_axis
        * (1 + elements.eccentricity) / (elements.eccentricity - 1))

/-- Embeds `Orbit::areal_velocity` (A, rate of area swept). -/
def Orbit.areal_velocity (self : Orbit) (body : Body) : ℝ :=
  match self with
  | .Circular elements => Real.sqrt (body.k * elements.semimajor_axis)
  | .Elliptical elements =>
      Real.sqrt (body.k * elements.semimajor_axis
        * (1 + elements.eccentricity) / (1 - elements.eccentricity))
  | .Parabolic elements => Real.sqrt (body.k * (Orbit.Parabolic elements).periapsis / 2)
  | .Hyperbolic elements =>
      Real.sqrt (body.k * elements.semimajor_axis
        * (1 + elements.eccentricity) / (elements.eccentricity - 1))

/-- Embeds `Orbit::orbital_period` (P, `Option<f64>`); `powf(3.0)` modelled as
`^ 3`. -/
def Orbit.orbital_period (self : Orbit) (body : Body) : Option ℝ :=
  match self with
  | .Circular elements =>
      some (2 * PI * Real.sqrt (elements.semimajor_axis ^ 3 / body.k))
  | .Elliptical elements =>
      some (2 * PI * Real.sqrt (elements.semimajor_axis ^ 3 / body.k))
  | .Parabolic _elements => none
  | .Hyperbolic _elements => none

/-- Embeds `Orbit::eccentric_anomaly` (E / D / F per class). -/
def Orbit.eccentric_anomaly (self : Orbit) (anomaly : Anomaly) : ℝ :=
  match self with
  | .Circular _elements => anomaly.true_anomaly
  | .Elliptical elements =>
      Real.arccos ((elements.eccentricity + Real.cos anomaly.true_anomaly)
        / (1 + elements.eccentricity * Real.cos anomaly.true_anomaly))
  | .Parabolic _elements => Real.tan (anomaly.true_anomaly / 2)
  | .Hyperbolic elements =>
      arcosh ((elements.eccentricity + Real.cos anomaly.true_anomaly)
        / (1 + elements.eccentricity * Real.cos anomaly.true_anomaly))

/-- Embeds `Orbit::mean_anomaly` (M per class); `D.powf(3.0)` modelled as
`D ^ 3`. -/
def Orbit.mean_anomaly (self : Orbit) (anomaly : Anomaly) : ℝ :=
  match self with
  | .Circular _elements => anomaly.true_anomaly
  | .Elliptical elements =>
      let E := (Orbit.Elliptical elements).eccentric_anomaly anomaly
      E - elements.eccentricity * Real.sin E
  | .Parabolic elements =>
      let D := (Orbit.Parabolic elements).eccentric_anomaly anomaly
      D + D ^ 3 / 3
  | .Hyperbolic elements =>
      let F := (Orbit.Hyperbolic elements).eccentric_anomaly anomaly
      elements.eccentricity * Real.sinh F - F

/-- Embeds `Orbit::next_anomaly`, whose entire body is
`panic!("Not implemented")`. -/
def Orbit.next_anomaly (_self : Orbit) (_dT : ℕ) (_body : Body) (_anomaly : Anomaly) :
    Except RustPanic Anomaly :=
  Except.error RustPanic.notImplemented

end

/-- Helper: the square root of 4 is 2. -/
theorem sqrt_four : Real.sqrt 4 = 2 := by
  rw [show (4 : ℝ) = 2 ^ 2 by norm_num, Real.sqrt_sq (by norm_num : (0 : ℝ) ≤ 2)]

/-- Claim C6: `Orbit::next_anomaly` fails on every input — its body is the
placeholder `panic!("Not implemented")`, so it never returns an `Anomaly`. -/
theorem C6_next_anomaly_always_panics (o : Orbit) (dT : ℕ) (b : Body) (a : Anomaly) :
    o.next_anomaly dT b a = Except.error RustPanic.notImplemented := rfl

/-- Claim C8: `Orbit::orbital_period` returns `some (2·π·sqrt (a³ / k))` for
Circular and Elliptical orbits and `none` (absence, not an error) for
Parabolic and Hyperbolic orbits. -/
theorem C8_orbital_period_per_class (elems : KeplerianElements) (b : Body) :
    (Orbit.Circular elems).orbital_period b
      = some (2 * Real.pi * Real.sqrt (elems.semimajor_axis ^ 3 / b.k))
    ∧ (Orbit.Elliptical elems).orbital_period b
      = some (2 * Real.pi * Real.sqrt (elems.semimajor_axis ^ 3 / b.k))
    ∧ (Orbit.Parabolic elems).orbital_period b = none
    ∧ (Orbit.Hyperbolic elems).orbital_period b = none :=
  ⟨rfl, rfl, rfl, rfl⟩

/-- Claim C1 (failing evaluation): the round trip true→mean→true anomaly
cannot recover ν.  First, `next_anomaly` — the only inversion of mean anomaly
in the source — fails (panics) at the spec's own example orbit
(a = 7000000, e = 0.1) at ν = 1.  Second, the source's `mean_anomaly` maps
ν = −1 and ν = 1 to the same value on that orbit, so no inverse of it could
recover a negative ν to within 1e-9. -/
theorem C1_round_trip_unimplemented :
    (Orbit.Elliptical ⟨7000000, 1/10, 0, 0, 0⟩).next_anomaly 1000 ⟨1, 1, 1, 0⟩ ⟨0, 1, 0, 0⟩
      = Except.error RustPanic.notImplemented
    ∧ (Orbit.Elliptical ⟨7000000, 1/10, 0, 0, 0⟩).mean_anomaly ⟨0, -1, 0, 0⟩
      = (Orbit.Elliptical ⟨7000000, 1/10, 0, 0, 0⟩).mean_anomaly ⟨0, 1, 0, 0⟩ := by
  refine ⟨rfl, ?_⟩
  simp [Orbit.mean_anomaly, Orbit.eccentric_anomaly, Real.cos_neg]

/-- Claim C2 (failing evaluation): `Orbit::total_energy` computes
`(-k / 2) * a`, not `-k / (2a)`.  At k = 2, a = 2 (Elliptical) the code
yields −2 while −k/(2a) = −1/2.  The Parabolic arm does return exactly 0. -/
theorem C2_total_energy_not_neg_k_div_2a :
    (Orbit.Elliptical ⟨2, 1/2, 0, 0, 0⟩).total_energy ⟨1, 1, 2, 0⟩ = -2
    ∧ -(2 : ℝ) / (2 * 2) = -(1/2)
    ∧ ((-2 : ℝ) ≠ -(1/2))
    ∧ (∀ (elems : KeplerianElements) (b : Body),
        (Orbit.Parabolic elems).total_energy b = 0) := by
  refine ⟨by norm_num [Orbit.total_energy], by norm_num, by norm_num, fun elems b => rfl⟩

/-- Claim C5 (failing evaluation): while `Body::k(mass, G)` does return
`mass * G`, the default-constructed `Body` stores `k = Body::k(0.0, G) = 0`
alongside `mass = 1`, so its stored `k` differs from `mass · G`. -/
theorem C5_default_body_k_desynced :
    (∀ m G : ℝ, Body.kOf m G = m * G)
    ∧ Body.defaultBody.mass = 1
    ∧ Body.defaultBody.k = 0
    ∧ Body.defaultBody.mass * Body.defaultBody.G ≠ Body.defaultBody.k := by
  refine ⟨fun m G => rfl, ?_, ?_, ?_⟩ <;> norm_num [Body.defaultBody, Body.kOf]

/-- Claim C7 counterexample: an `Elliptical` orbit with eccentricity 2 (≥ 1)
is constructed without any failure — there is no validating constructor and
no `InvalidElementsError` in the source — and its queries answer normally. -/
theorem C7_counterexample_e2_elliptical_accepted :
    (Orbit.Elliptical ⟨7000000, 2, 0, 0, 0⟩).eccentricity = 2
    ∧ (Orbit.Elliptical ⟨7000000, 2, 0, 0, 0⟩).semimajor_axis = some 7000000 :=
  ⟨rfl, rfl⟩

/-- Claim C7 (amended): the source's `Orbit` is a bare tagged union whose
constructors accept any `KeplerianElements` whatsoever — elements are never
validated, rejected, or reclassified; `eccentricity()` reports the stored
value for Elliptical/Hyperbolic and the class constant for
Circular/Parabolic, whatever the stored elements are. -/
theorem C7_no_validating_construction (elems : KeplerianElements) :
    (Orbit.Elliptical elems).eccentricity = elems.eccentricity
    ∧ (Orbit.Hyperbolic elems).eccentricity = elems.eccentricity
    ∧ (Orbit.Circular elems).eccentricity = 0
    ∧ (Orbit.Parabolic elems).eccentricity = 1 :=
  ⟨rfl, rfl, rfl, rfl⟩

/-- Claim C3 (failing evaluation): the Circular arm of `Orbit::velocity`
returns `k · (1/a)` with no square root, so at k = 4, a = 1 it yields 4 while
the vis-viva value sqrt(k/a) is 2 — which is what the source's own
`velocity_at_periapsis` returns for the same circular orbit.  The
Elliptical, Parabolic, and Hyperbolic arms do match the claimed formulas. -/
theorem C3_velocity_circular_missing_sqrt :
    (Orbit.Circular ⟨1, 0, 0, 0, 0⟩).velocity ⟨1, 1, 4, 0⟩ ⟨0, 0, 0, 0⟩ = 4
    ∧ Real.sqrt ((4 : ℝ) / 1) = 2
    ∧ (Orbit.Circular ⟨1, 0, 0, 0, 0⟩).velocity_at_periapsis ⟨1, 1, 4, 0⟩ = 2
    ∧ (∀ (elems : KeplerianElements) (b : Body) (a : Anomaly),
        (Orbit.Elliptical elems).velocity b a
          = Real.sqrt (b.k * (2 / (Orbit.Elliptical elems).distance_from_parent b a
              - 1 / elems.semimajor_axis)))
    ∧ (∀ (elems : KeplerianElements) (b : Body) (a : Anomaly),
        (Orbit.Parabolic elems).velocity b a
          = Real.sqrt (b.k * (2 / (Orbit.Parabolic elems).distance_from_parent b a)))
    ∧ (∀ (elems : KeplerianElements) (b : Body) (a : Anomaly),
        (Orbit.Hyperbolic elems).velocity b a
          = Real.sqrt (b.k * (2 / (Orbit.Hyperbolic elems).distance_from_parent b a
              - 1 / elems.semimajor_axis))) := by
  refine ⟨?_, ?_, ?_, fun _ _ _ => rfl, fun _ _ _ => rfl, fun _ _ _ => rfl⟩
  · norm_num [Orbit.velocity]
  · rw [show (4 : ℝ) / 1 = 4 by norm_num, sqrt_four]
  · simp only [Orbit.velocity_at_periapsis]
    rw [show (⟨1, 1, 4, 0⟩ : Body).k / (⟨1, 0, 0, 0, 0⟩ : KeplerianElements).semimajor_axis
          = 4 by norm_num, sqrt_four]

/-- Claim C4 counterexample: for the Parabolic orbit with periapsis 2 around
a body with k = 1, `areal_velocity` returns sqrt(k·q/2) = 1 while
sqrt(k · parameter()) = sqrt(k·2q) = 2, so areal_velocity ≠ sqrt(k·p). -/
theorem C4_counterexample_parabolic :
    (Orbit.Parabolic ⟨2, 1, 0, 0, 0⟩).areal_velocity ⟨1, 1, 1, 0⟩ = 1
    ∧ Real.sqrt ((⟨1, 1, 1, 0⟩ : Body).k * (Orbit.Parabolic ⟨2, 1, 0, 0, 0⟩).parameter) = 2
    ∧ (1 : ℝ) ≠ 2 := by
  refine ⟨?_, ?_, by norm_num⟩
  · simp only [Orbit.areal_velocity, Orbit.periapsis]
    rw [show (⟨1, 1, 1, 0⟩ : Body).k * (⟨2, 1, 0, 0, 0⟩ : KeplerianElements).semimajor_axis / 2
          = 1 by norm_num, Real.sqrt_one]
  · rw [show (⟨1, 1, 1, 0⟩ : Body).k * (Orbit.Parabolic ⟨2, 1, 0, 0, 0⟩).parameter
          = 4 by norm_num [Orbit.parameter], sqrt_four]

/-- Claim C4 (amended): `areal_velocity` equals sqrt(k · parameter()) only for
Circular orbits.  For Elliptical orbits (0 ≤ e < 1) it equals
sqrt(k·p)/(1−e); for Parabolic orbits it equals sqrt(k·p)/2; for Hyperbolic
orbits (e > 1, nonnegative stored a, where p = a·(1−e²) is nonpositive) it
equals sqrt(−k·p)/(e−1). -/
theorem C4_areal_velocity_per_class (b : Body) (hk : 0 ≤ b.k) :
    (∀ elems : KeplerianElements,
        (Orbit.Circular elems).areal_velocity b
          = Real.sqrt (b.k * (Orbit.Circular elems).parameter))
    ∧ (∀ elems : KeplerianElements, 0 ≤ elems.semimajor_axis →
        0 ≤ elems.eccentricity → elems.eccentricity < 1 →
        (Orbit.Elliptical elems).areal_velocity b
          = Real.sqrt (b.k * (Orbit.Elliptical elems).parameter)
              / (1 - elems.eccentricity))
    ∧ (∀ elems : KeplerianElements, 0 ≤ elems.semimajor_axis →
        (Orbit.Parabolic elems).areal_velocity b
          = Real.sqrt (b.k * (Orbit.Parabolic elems).parameter) / 2)
    ∧ (∀ elems : KeplerianElements, 0 ≤ elems.semimajor_axis →
        1 < elems.eccentricity →
        (Orbit.Hyperbolic elems).areal_velocity b
          = Real.sqrt (-(b.k * (Orbit.Hyperbolic elems).parameter))
              / (elems.eccentricity - 1)) := by
  refine ⟨fun elems => rfl, ?_, ?_, ?_⟩
  · intro elems ha he0 he1
    have h1 : (0 : ℝ) < 1 - elems.eccentricity := by linarith
    have hX : 0 ≤ b.k * (elems.semimajor_axis * (1 - elems.eccentricity ^ 2)) := by
      apply mul_nonneg hk
      apply mul_nonneg ha
      nlinarith
    have key : b.k * elems.semimajor_axis * (1 + elems.eccentricity)
          / (1 - elems.eccentricity)
        = b.k * (elems.semimajor_axis * (1 - elems.eccentricity ^ 2))
          / (1 - elems.eccentricity) ^ 2 := by
      field_simp
      ring
    simp only [Orbit.areal_velocity, Orbit.parameter]
    rw [key, Real.sqrt_div hX, Real.sqrt_sq h1.le]
  · intro elems ha
    have hX : 0 ≤ b.k * (2 * elems.semimajor_axis) :=
      mul_nonneg hk (by linarith)
    have key : b.k * elems.semimajor_axis / 2
        = b.k * (2 * elems.semimajor_axis) / 2 ^ 2 := by ring
    simp only [Orbit.areal_velocity, Orbit.periapsis, Orbit.parameter]
    rw [key, Real.sqrt_div hX, Real.sqrt_sq (by norm_num : (0 : ℝ) ≤ 2)]
  · intro elems ha he
    have h1 : (0 : ℝ) < elems.eccentricity - 1 := by linarith
    have hX : 0 ≤ -(b.k * (elems.semimajor_axis * (1 - elems.eccentricity ^ 2))) := by
      have hrw : -(b.k * (elems.semimajor_axis * (1 - elems.eccentricity ^ 2)))
          = b.k * (elems.semimajor_axis * (elems.eccentricity ^ 2 - 1)) := by ring
      rw [hrw]
      apply mul_nonneg hk
      apply mul_nonneg ha
      nlinarith
    have key : b.k * elems.semimajor_axis * (1 + elems.eccentricity)
          / (elems.eccentricity - 1)
        = -(b.k * (elems.semimajor_axis * (1 - elems.eccentricity ^ 2)))
          / (elems.eccentricity - 1) ^ 2 := by
      field_simp
      ring
    simp only [Orbit.areal_velocity, Orbit.parameter]
    rw [key, Real.sqrt_div hX, Real.sqrt_sq h1.le]

/-- Witness for C4: the amended per-class relation evaluated at k = 1 and the
Parabolic orbit with periapsis 2: areal_velocity = sqrt(k·p)/2 there. -/
theorem C4_areal_velocity_per_class_witness :
    (0 : ℝ) ≤ (⟨1, 1, 1, 0⟩ : Body).k
    ∧ (Orbit.Parabolic ⟨2, 1, 0, 0, 0⟩).areal_velocity ⟨1, 1, 1, 0⟩
        = Real.sqrt ((⟨1, 1, 1, 0⟩ : Body).k
            * (Orbit.Parabolic ⟨2, 1, 0, 0, 0⟩).parameter) / 2 :=
  ⟨by norm_num,
    (C4_areal_velocity_per_class ⟨1, 1, 1, 0⟩ (by norm_num)).2.2.1
      ⟨2, 1, 0, 0, 0⟩ (by norm_num)⟩

/-- Claim C9 counterexample: for a Parabolic orbit at true anomaly π the
denominator 1 + cos ν of `distance_from_parent` is exactly 0, yet the source
performs the division anyway and returns a plain number — its return type has
no error channel, so nothing is "detected and reported".  (In Rust f64 the
division yields Infinity; under the real-number model with total division the
returned value is 0.) -/
theorem C9_counterexample_parabolic_div_zero :
    1 + Real.cos ((⟨0, Real.pi, 0, 0⟩ : Anomaly).true_anomaly) = 0
    ∧ (Orbit.Parabolic ⟨7000000, 1, 0, 0, 0⟩).distance_from_parent
        ⟨1, 1, 1, 0⟩ ⟨0, Real.pi, 0, 0⟩
      = 2 * 7000000 / (1 + Real.cos Real.pi) := by
  constructor
  · simp [Real.cos_pi]
  · rfl

/-- Claim C9 (amended): `distance_from_parent` and `velocity` report no error
kind whatsoever — they are total functions into plain numbers.  Whenever the
Parabolic denominator 1 + cos ν vanishes, the division by zero is executed
silently; under the model's total division both queries then return the junk
value 0 (Rust f64 returns Infinity / NaN there). -/
theorem C9_silent_division_no_error (elems : KeplerianElements) (b : Body)
    (a : Anomaly) (h : 1 + Real.cos a.true_anomaly = 0) :
    (Orbit.Parabolic elems).distance_from_parent b a = 0
    ∧ (Orbit.Parabolic elems).velocity b a = 0 := by
  have hd : (Orbit.Parabolic elems).distance_from_parent b a = 0 := by
    simp only [Orbit.distance_from_parent]
    rw [h, div_zero]
  refine ⟨hd, ?_⟩
  simp only [Orbit.velocity]
  rw [hd]
  simp

/-- Witness for C9: the Parabolic orbit with periapsis 7000000 at ν = π: the
denominator vanishes and both queries return 0 silently. -/
theorem C9_silent_division_no_error_witness :
    1 + Real.cos ((⟨0, Real.pi, 0, 0⟩ : Anomaly).true_anomaly) = 0
    ∧ ((Orbit.Parabolic ⟨7000000, 1, 0, 0, 0⟩).distance_from_parent
          ⟨1, 1, 1, 0⟩ ⟨0, Real.pi, 0, 0⟩ = 0
        ∧ (Orbit.Parabolic ⟨7000000, 1, 0, 0, 0⟩).velocity
          ⟨1, 1, 1, 0⟩ ⟨0, Real.pi, 0, 0⟩ = 0) :=
  ⟨by simp [Real.cos_pi],
    C9_silent_division_no_error ⟨7000000, 1, 0, 0, 0⟩ ⟨1, 1, 1, 0⟩
      ⟨0, Real.pi, 0, 0⟩ (by simp [Real.cos_pi])⟩

/-- Claim C10: for Elliptical and Hyperbolic orbits, `eccentric_anomaly` and
`mean_anomaly` depend on the true anomaly only through cos ν, hence are even:
anomalies with true anomaly −ν and ν give identical results; and the
Elliptical eccentric anomaly, being an arccos, always lies in [0, π]. -/
theorem C10_anomalies_even_in_true_anomaly (elems : KeplerianElements)
    (a b : Anomaly) (h : a.true_anomaly = -b.true_anomaly) :
    (Orbit.Elliptical elems).eccentric_anomaly a
      = (Orbit.Elliptical elems).eccentric_anomaly b
    ∧ (Orbit.Elliptical elems).mean_anomaly a
      = (Orbit.Elliptical elems).mean_anomaly b
    ∧ (Orbit.Hyperbolic elems).eccentric_anomaly a
      = (Orbit.Hyperbolic elems).eccentric_anomaly b
    ∧ (Orbit.Hyperbolic elems).mean_anomaly a
      = (Orbit.Hyperbolic elems).mean_anomaly b
    ∧ 0 ≤ (Orbit.Elliptical elems).eccentric_anomaly a
    ∧ (Orbit.Elliptical elems).eccentric_anomaly a ≤ Real.pi := by
  have hc : Real.cos a.true_anomaly = Real.cos b.true_anomaly := by
    rw [h, Real.cos_neg]
  refine ⟨?_, ?_, ?_, ?_, ?_, ?_⟩
  · simp only [Orbit.eccentric_anomaly, hc]
  · simp only [Orbit.mean_anomaly, Orbit.eccentric_anomaly, hc]
  · simp only [Orbit.eccentric_anomaly, hc]
  · simp only [Orbit.mean_anomaly, Orbit.eccentric_anomaly, hc]
  · simp only [Orbit.eccentric_anomaly]
    exact Real.arccos_nonneg _
  · simp only [Orbit.eccentric_anomaly]
    exact Real.arccos_le_pi _

/-- Witness for C10: the Elliptical/Hyperbolic orbits with e = 1/2 at true
anomalies −1 and 1 give identical eccentric and mean anomalies, and the
Elliptical eccentric anomaly lies in [0, π]. -/
theorem C10_anomalies_even_witness :
    (⟨0, -1, 0, 0⟩ : Anomaly).true_anomaly = -(⟨0, 1, 0, 0⟩ : Anomaly).true_anomaly
    ∧ ((Orbit.Elliptical ⟨2, 1/2, 0, 0, 0⟩).eccentric_anomaly ⟨0, -1, 0, 0⟩
          = (Orbit.Elliptical ⟨2, 1/2, 0, 0, 0⟩).eccentric_anomaly ⟨0, 1, 0, 0⟩
        ∧ (Orbit.Elliptical ⟨2, 1/2, 0, 0, 0⟩).mean_anomaly ⟨0, -1, 0, 0⟩
          = (Orbit.Elliptical ⟨2, 1/2, 0, 0, 0⟩).mean_anomaly ⟨0, 1, 0, 0⟩
        ∧ (Orbit.Hyperbolic ⟨2, 1/2, 0, 0, 0⟩).eccentric_anomaly ⟨0, -1, 0, 0⟩
          = (Orbit.Hyperbolic ⟨2, 1/2, 0, 0, 0⟩).eccentric_anomaly ⟨0, 1, 0, 0⟩
        ∧ (Orbit.Hyperbolic ⟨2, 1/2, 0, 0, 0⟩).mean_anomaly ⟨0, -1, 0, 0⟩
          = (Orbit.Hyperbolic ⟨2, 1/2, 0, 0, 0⟩).mean_anomaly ⟨0, 1, 0, 0⟩
        ∧ 0 ≤ (Orbit.Elliptical ⟨2, 1/2, 0, 0, 0⟩).eccentric_anomaly ⟨0, -1, 0, 0⟩
        ∧ (Orbit.Elliptical ⟨2, 1/2, 0, 0, 0⟩).eccentric_anomaly ⟨0, -1, 0, 0⟩
          ≤ Real.pi) :=
  ⟨by norm_num,
    C10_anomalies_even_in_true_anomaly ⟨2, 1/2, 0, 0, 0⟩
      ⟨0, -1, 0, 0⟩ ⟨0, 1, 0, 0⟩ (by norm_num)⟩
